import Mathlib

/-!
Verification of the issue priority scoring engine
(`app/services/priority_scoring.py`, `app/routes/priority_routes.py`,
`app/models/models.py`) of the civic-snap issue reporter.

The Python code is shallowly embedded: scores are exact rationals, the
external store (issues, citizen votes, duplicate links, priority logs) is a
record of lists, timestamps are integers at day granularity (the code only
ever consumes `.days` of a timestamp difference), and Python `round(x, 2)`
is modelled as round-half-to-even on rationals.
-/

/-- Lowercase a string character by character, as Python `str.lower` does for
the ASCII texts handled here. -/
def lowerStr (s : String) : String := ⟨s.data.map Char.toLower⟩

/-- Python `pat in text` substring test. -/
def containsKw (text pat : String) : Bool := decide (List.IsInfix pat.data text.data)

/-- Python `any(keyword in text for keyword in kws)`. -/
def anyKw (text : String) (kws : List String) : Bool := kws.any (fun k => containsKw text k)

/-- Number of keywords of `kws` occurring as substrings of `text`; the code
adds a fixed weight once per matching keyword. -/
def countMatches (text : String) (kws : List String) : ℕ :=
  (kws.filter (fun k => containsKw text k)).length

/-- Round a rational to the nearest integer, ties to even (Python `round`). -/
def rndHalfEven (q : ℚ) : ℤ :=
  if q - ⌊q⌋ < 1/2 then ⌊q⌋
  else if 1/2 < q - ⌊q⌋ then ⌊q⌋ + 1
  else if 2 ∣ ⌊q⌋ then ⌊q⌋ else ⌊q⌋ + 1

/-- Python `round(q, 2)`. -/
def round2 (q : ℚ) : ℚ := (rndHalfEven (q * 100) : ℚ) / 100

lemma floor_le_rndHalfEven (q : ℚ) : ⌊q⌋ ≤ rndHalfEven q := by
  unfold rndHalfEven
  split_ifs <;> omega

lemma rndHalfEven_le_ceil (q : ℚ) : rndHalfEven q ≤ ⌈q⌉ := by
  have hfc : ⌊q⌋ ≤ ⌈q⌉ := Int.floor_le_ceil q
  have hkey : ¬ q - ⌊q⌋ < 1/2 → ⌊q⌋ + 1 ≤ ⌈q⌉ := by
    intro h
    have h1 : (⌊q⌋ : ℚ) < q := by
      have := Int.floor_le q
      by_contra hc
      push_neg at hc
      have : q = (⌊q⌋ : ℚ) := le_antisymm hc this
      rw [this] at h
      simp at h
    have : ⌊q⌋ < ⌈q⌉ := by
      rw [Int.lt_ceil]
      exact h1
    omega
  unfold rndHalfEven
  split_ifs with h1 h2 h3
  · exact hfc
  · exact hkey h1
  · exact hfc
  · exact hkey h1

lemma round2_le_int (q : ℚ) (n : ℤ) (h : q ≤ (n : ℚ)) : round2 q ≤ (n : ℚ) := by
  unfold round2
  rw [div_le_iff₀ (by norm_num : (0:ℚ) < 100)]
  have h1 : rndHalfEven (q * 100) ≤ ⌈q * 100⌉ := rndHalfEven_le_ceil _
  have h2 : ⌈q * 100⌉ ≤ n * 100 := by
    rw [Int.ceil_le]
    push_cast
    nlinarith
  calc ((rndHalfEven (q * 100) : ℚ)) ≤ (⌈q * 100⌉ : ℚ) := by exact_mod_cast h1
    _ ≤ ((n * 100 : ℤ) : ℚ) := by exact_mod_cast h2
    _ = (n : ℚ) * 100 := by push_cast; ring

lemma int_le_round2 (q : ℚ) (n : ℤ) (h : (n : ℚ) ≤ q) : (n : ℚ) ≤ round2 q := by
  unfold round2
  rw [le_div_iff₀ (by norm_num : (0:ℚ) < 100)]
  have h1 : ⌊q * 100⌋ ≤ rndHalfEven (q * 100) := floor_le_rndHalfEven _
  have h2 : n * 100 ≤ ⌊q * 100⌋ := by
    rw [Int.le_floor]
    push_cast
    nlinarith
  calc (n : ℚ) * 100 = ((n * 100 : ℤ) : ℚ) := by push_cast; ring
    _ ≤ ((⌊q * 100⌋ : ℤ) : ℚ) := by exact_mod_cast h2
    _ ≤ ((rndHalfEven (q * 100) : ℤ) : ℚ) := by exact_mod_cast h1

/-! Factor scorers (`PriorityScoring` in `app/services/priority_scoring.py`).
An `IssueData` mirrors the Python `issue_data` dict: the keys the scorers
read, with `citizen_severity_votes` defaulting to the empty list and
`ai_severity_score` to `none` when the producing query does not supply them
(`dict.get` with default). -/

structure IssueData where
  id : ℕ
  category : String
  title : String
  description : String
  latitude : ℚ
  longitude : ℚ
  address : String
  created_at : ℤ
  citizen_severity_votes : List ℚ := []
  ai_severity_score : Option ℚ := none
deriving DecidableEq

/-- Severity category table (`category_scores`, lines 76-83); `dict.get`
with default 5.0. -/
def severityCategoryScore (c : String) : ℚ :=
  if c = "road" then 7 else if c = "water" then 8 else if c = "electricity" then 9
  else if c = "dustbin" then 4 else if c = "transport" then 6 else if c = "others" then 5
  else 5

def high_severity_keywords : List String :=
  ["emergency", "urgent", "danger", "accident", "broke", "burst",
   "flood", "fire", "electrical", "gas", "leak", "blocked",
   "collapsed", "severe", "major", "critical"]

def medium_severity_keywords : List String :=
  ["damage", "problem", "issue", "concern", "repair", "fix",
   "maintenance", "replace", "broken"]

def low_severity_keywords : List String :=
  ["minor", "small", "slight", "cosmetic", "aesthetic",
   "request", "suggestion", "improvement"]

/-- `PriorityScoring.calculate_severity_score`.  The `citizen_severity_votes`
and truthy `ai_severity_score` blends fire only when present in the data
dict; Python treats `0.0` as falsy in `if image_severity:`. -/
def calculate_severity_score (d : IssueData) : ℚ :=
  let text := lowerStr d.title ++ " " ++ lowerStr d.description
  let severity_modifier : ℚ :=
    2 * (countMatches text high_severity_keywords : ℚ)
      + (1/2) * (countMatches text medium_severity_keywords : ℚ)
      - 1 * (countMatches text low_severity_keywords : ℚ)
  let base1 := min 10 (max 1 (severityCategoryScore d.category + severity_modifier))
  let base2 :=
    if d.citizen_severity_votes ≠ [] then
      base1 * (7/10) + (d.citizen_severity_votes.sum / d.citizen_severity_votes.length) * (3/10)
    else base1
  let base3 :=
    match d.ai_severity_score with
    | some v => if v ≠ 0 then base2 * (8/10) + v * (2/10) else base2
    | none => base2
  round2 (min 10 (max 1 base3))

/-- Road-type score from the address keyword chain
(`calculate_location_score`, lines 150-159). -/
def roadTypeScore (address_lower : String) : ℚ :=
  if anyKw address_lower ["highway", "expressway", "freeway"] then 10
  else if anyKw address_lower ["main", "avenue", "boulevard"] then 8
  else if anyKw address_lower ["street", "road", "drive"] then 6
  else if anyKw address_lower ["lane", "circle", "court"] then 4
  else if anyKw address_lower ["private", "alley"] then 2
  else 5

/-- `PriorityScoring._calculate_facility_proximity_bonus`; the coordinates
are accepted but unused, exactly as in the source. -/
def calculate_facility_proximity_bonus (_lat _lng : ℚ) (address : String) : ℚ :=
  let bonus : ℚ :=
    (if anyKw address ["hospital", "medical", "clinic"] then 3 else 0)
    + (if anyKw address ["school", "college", "university", "education"] then 5/2 else 0)
    + (if anyKw address ["police", "fire station", "emergency"] then 3 else 0)
    + (if anyKw address ["bus stop", "metro", "station", "transport"] then 2 else 0)
    + (if anyKw address ["mall", "market", "shopping", "commercial"] then 3/2 else 0)
    + (if anyKw address ["government", "municipal", "office", "admin"] then 9/5 else 0)
  min 3 bonus

/-- `PriorityScoring.calculate_location_score`. -/
def calculate_location_score (latitude longitude : ℚ) (address : String) : ℚ :=
  let address_lower := lowerStr address
  let base_score := roadTypeScore address_lower
  let facility_bonus := calculate_facility_proximity_bonus latitude longitude address_lower
  round2 (min 10 (base_score + facility_bonus))

/-- `PriorityScoring.calculate_age_score`; `age_days` is the signed
day-difference `now - created_at` (timestamps modelled in days). -/
def calculate_age_score (created_at now : ℤ) : ℚ :=
  let age_days := now - created_at
  if age_days ≤ 1 then 2
  else if age_days ≤ 7 then 3
  else if age_days ≤ 30 then 5
  else if age_days ≤ 90 then 7
  else if age_days ≤ 180 then 17/2
  else 10

def high_impact_keywords : List String :=
  ["accident", "traffic", "block", "congestion", "jam",
   "dangerous", "hazard", "unsafe", "risk", "injury",
   "emergency", "ambulance", "fire truck", "police"]

def economic_keywords : List String :=
  ["business", "commerce", "shop", "delivery", "truck",
   "transport", "goods", "supply", "economic", "revenue"]

/-- Safety category table (`category_impact`, lines 301-308); `dict.get`
with default 2.0 — note the key is `dustbin`, and any category outside the
table (such as `sanitation`) falls back to 2.0. -/
def categoryImpact (c : String) : ℚ :=
  if c = "road" then 3 else if c = "electricity" then 4 else if c = "water" then 7/2
  else if c = "transport" then 3 else if c = "dustbin" then 1 else if c = "others" then 2
  else 2

/-- `PriorityScoring.calculate_safety_impact_score`.  The running score
starts at 5.0 and the category impact is added on top of it. -/
def calculate_safety_impact_score (d : IssueData) : ℚ :=
  let text := lowerStr d.title ++ " " ++ lowerStr d.description
  let category := lowerStr d.category
  let safety_modifier : ℚ :=
    (3/2) * (countMatches text high_impact_keywords : ℚ)
      + 1 * (countMatches text economic_keywords : ℚ)
  round2 (min 10 (max 1 (5 + safety_modifier + categoryImpact category)))

/-- The fixed factor weights (`PriorityScoring.WEIGHTS`). -/
def WEIGHTS : List (String × ℚ) :=
  [("severity", 35/100), ("location", 25/100), ("reports_count", 15/100),
   ("age", 15/100), ("safety_impact", 10/100)]

/-- The weighted sum of lines 332-338 of `calculate_overall_priority_score`. -/
def weightedFinalScore (severity location reports age safety : ℚ) : ℚ :=
  severity * (35/100) + location * (25/100) + reports * (15/100)
    + age * (15/100) + safety * (10/100)

/-- The threshold chain of lines 340-350 assigning a discrete priority level
to the (unrounded) final score. -/
def priorityLevelOf (final_score : ℚ) : String :=
  if final_score ≥ 8 then "critical"
  else if final_score ≥ 13/2 then "high"
  else if final_score ≥ 9/2 then "medium"
  else if final_score ≥ 5/2 then "low"
  else "very_low"

/-- Bucketing of the duplicate count (lines 224-233). -/
def reportsScoreOfCount (duplicate_count : ℕ) : ℚ :=
  if duplicate_count = 0 then 1
  else if duplicate_count ≤ 2 then 3
  else if duplicate_count ≤ 5 then 6
  else if duplicate_count ≤ 10 then 8
  else 10

example : calculate_age_score 0 200 = 10 := by decide

example : calculate_location_score 0 0 "123 Main Avenue" = 8 := by
  have h1 : roadTypeScore (lowerStr "123 Main Avenue") = 8 := by decide
  have hb1 : anyKw (lowerStr "123 Main Avenue") ["hospital", "medical", "clinic"] = false := by decide
  have hb2 : anyKw (lowerStr "123 Main Avenue") ["school", "college", "university", "education"] = false := by decide
  have hb3 : anyKw (lowerStr "123 Main Avenue") ["police", "fire station", "emergency"] = false := by decide
  have hb4 : anyKw (lowerStr "123 Main Avenue") ["bus stop", "metro", "station", "transport"] = false := by decide
  have hb5 : anyKw (lowerStr "123 Main Avenue") ["mall", "market", "shopping", "commercial"] = false := by decide
  have hb6 : anyKw (lowerStr "123 Main Avenue") ["government", "municipal", "office", "admin"] = false := by decide
  simp only [calculate_location_score, calculate_facility_proximity_bonus,
    h1, hb1, hb2, hb3, hb4, hb5, hb6]
  norm_num [round2, rndHalfEven]

example : calculate_severity_score
    { id := 1, category := "electricity", title := "burst pipe",
      description := "dangerous", latitude := 0, longitude := 0,
      address := "", created_at := 0 } = 10 := by
  have h1 : countMatches (lowerStr "burst pipe" ++ " " ++ lowerStr "dangerous")
      high_severity_keywords = 2 := by decide
  have h2 : countMatches (lowerStr "burst pipe" ++ " " ++ lowerStr "dangerous")
      medium_severity_keywords = 0 := by decide
  have h3 : countMatches (lowerStr "burst pipe" ++ " " ++ lowerStr "dangerous")
      low_severity_keywords = 0 := by decide
  have hcat : severityCategoryScore "electricity" = 9 := by decide
  simp only [calculate_severity_score, h1, h2, h3, hcat]
  norm_num [round2, rndHalfEven]

/-! Great-circle distance (`calculate_distance`, lines 21-32) and the
duplicate-report factor (`calculate_reports_count_score`, lines 193-236).
The transcendental arithmetic is over the reals; the comparison against the
100 m radius is therefore a classical test. -/

/-- Python `math.atan2`. -/
noncomputable def atan2 (y x : ℝ) : ℝ :=
  if 0 < x then Real.arctan (y / x)
  else if x < 0 then
    (if 0 ≤ y then Real.arctan (y / x) + Real.pi else Real.arctan (y / x) - Real.pi)
  else
    (if 0 < y then Real.pi / 2 else if y < 0 then -(Real.pi / 2) else 0)

/-- Degrees to radians, Python `math.radians`. -/
noncomputable def radians (x : ℝ) : ℝ := x * Real.pi / 180

/-- Haversine distance in meters (`calculate_distance`). -/
noncomputable def calculate_distance (lat1 lon1 lat2 lon2 : ℝ) : ℝ :=
  let R : ℝ := 6371000
  let phi1 := radians lat1
  let phi2 := radians lat2
  let delta_phi := radians (lat2 - lat1)
  let delta_lambda := radians (lon2 - lon1)
  let a := Real.sin (delta_phi / 2) ^ 2
    + Real.cos phi1 * Real.cos phi2 * Real.sin (delta_lambda / 2) ^ 2
  let c := 2 * atan2 (Real.sqrt a) (Real.sqrt (1 - a))
  R * c

lemma atan2_zero_one : atan2 0 1 = 0 := by
  unfold atan2
  rw [if_pos one_pos]
  simp [Real.arctan_zero]

lemma calculate_distance_self (lat lon : ℝ) : calculate_distance lat lon lat lon = 0 := by
  unfold calculate_distance radians
  simp [Real.sin_zero, Real.sqrt_zero, Real.sqrt_one, atan2_zero_one]

/-! The external store.  Rows mirror the columns the engine reads and
writes; `priority_breakdown` holds the persisted breakdown value (the JSON
serialization is abstracted away). -/

structure Breakdown where
  final_score : ℚ
  priority_level : String
  severity : ℚ
  location : ℚ
  reports_count : ℚ
  age : ℚ
  safety_impact : ℚ
  duplicate_count : ℕ
deriving DecidableEq

structure IssueRow where
  id : ℕ
  category : String
  title : String
  description : String
  status : String
  latitude : ℚ
  longitude : ℚ
  address : String
  created_at : ℤ
  ai_severity_score : Option ℚ := none
  priority_score : Option ℚ := none
  priority_level : Option String := none
  priority_breakdown : Option Breakdown := none
  last_priority_update : ℤ := 0
deriving DecidableEq

open Classical in
/-- The 100 m proximity test of the duplicate loop (lines 213-221). -/
noncomputable def isNearbyDuplicate (latitude longitude : ℚ) (r : IssueRow) : Bool :=
  decide (calculate_distance (latitude : ℝ) (longitude : ℝ) (r.latitude : ℝ) (r.longitude : ℝ) ≤ 100)

/-- `PriorityScoring.calculate_reports_count_score`: the store query keeps
every other non-resolved issue (no category filter in the SQL), the
client-side loop counts those within 100 m, and the count is bucketed. -/
noncomputable def calculate_reports_count_score
    (issues : List IssueRow) (issue_id : ℕ) (latitude longitude : ℚ) : ℚ × ℕ :=
  let similar_issues := issues.filter (fun r => r.id != issue_id && r.status != "resolved")
  let duplicate_count := similar_issues.countP (fun r => isNearbyDuplicate latitude longitude r)
  (round2 (reportsScoreOfCount duplicate_count), duplicate_count)

/-- `PriorityScoring.calculate_overall_priority_score`, reading the store's
issue list for the duplicate query; `now` is the computation time in days. -/
noncomputable def calculate_overall_priority_score
    (issues : List IssueRow) (now : ℤ) (d : IssueData) : Breakdown :=
  let severity_score := calculate_severity_score d
  let location_score := calculate_location_score d.latitude d.longitude d.address
  let reports := calculate_reports_count_score issues d.id d.latitude d.longitude
  let age_score := calculate_age_score d.created_at now
  let safety_score := calculate_safety_impact_score d
  let final_score := weightedFinalScore severity_score location_score reports.1 age_score safety_score
  { final_score := round2 final_score
    priority_level := priorityLevelOf final_score
    severity := severity_score
    location := location_score
    reports_count := reports.1
    age := age_score
    safety_impact := safety_score
    duplicate_count := reports.2 }

/-! The external store and the event coordinator (`CitizenVoting`,
`Issue.update_priority_score`, `Issue.recalculate_all_priorities`, and the
`/api/vote/duplicate` route).  Row ids are naturals; fresh vote ids come
from an autoincrement counter. -/

structure VoteRow where
  id : ℕ
  issue_id : ℕ
  user_id : ℕ
  vote_type : String
  rating : ℤ
  created_at : ℤ
deriving DecidableEq

structure DupRow where
  issue_id : ℕ
  duplicate_issue_id : ℕ
  reported_by : ℕ
  created_at : ℤ
deriving DecidableEq

structure LogRow where
  issue_id : ℕ
  old_priority_score : Option ℚ
  new_priority_score : ℚ
  old_priority_level : Option String
  new_priority_level : String
  trigger_reason : String
  created_at : ℤ
deriving DecidableEq

structure Store where
  issues : List IssueRow
  votes : List VoteRow
  duplicate_reports : List DupRow
  priority_logs : List LogRow
  next_vote_id : ℕ
deriving DecidableEq

/-- Python `dict(issue)` for a row of the `issues` table: the dict carries
exactly the row's columns, so `citizen_severity_votes` is absent and
`.get('citizen_severity_votes', [])` yields the empty list. -/
def rowToData (r : IssueRow) : IssueData :=
  { id := r.id, category := r.category, title := r.title,
    description := r.description, latitude := r.latitude,
    longitude := r.longitude, address := r.address,
    created_at := r.created_at,
    citizen_severity_votes := [],
    ai_severity_score := r.ai_severity_score }

/-- The issue-table update of `CitizenVoting._recalculate_issue_priority`
(and of `Issue.update_priority_score`): set score, level, breakdown and the
update timestamp on every row matching the id. -/
def setPriorityFields (pd : Breakdown) (now : ℤ) (issue_id : ℕ) (rows : List IssueRow) : List IssueRow :=
  rows.map (fun r =>
    if r.id == issue_id then
      { r with priority_score := some pd.final_score,
               priority_level := some pd.priority_level,
               priority_breakdown := some pd,
               last_priority_update := now }
    else r)

/-- `CitizenVoting._recalculate_issue_priority`: fetch the issue row, and if
it exists recompute and persist; a missing id is a silent no-op.  No
priority-log entry is written on this path. -/
noncomputable def recalculate_issue_priority (s : Store) (issue_id : ℕ) (now : ℤ) : Store :=
  match s.issues.find? (fun r => r.id == issue_id) with
  | none => s
  | some issue =>
      let pd := calculate_overall_priority_score s.issues now (rowToData issue)
      { s with issues := setPriorityFields pd now issue_id s.issues }

/-- Outcome of a coordinator call: the boolean the Python function returns,
the store afterwards, and the ids it triggered a recompute for (in call
order), recorded to observe how many recomputes an event causes. -/
structure CoordResult where
  ok : Bool
  store : Store
  recomputed : List ℕ
deriving DecidableEq

/-- `CitizenVoting.submit_severity_vote`: reject ratings outside 1..10
before touching the store, otherwise upsert the severity vote row keyed by
(issue_id, user_id, 'severity') and recompute that issue. -/
noncomputable def submit_severity_vote
    (s : Store) (issue_id user_id : ℕ) (severity_rating : ℤ) (now : ℤ) : CoordResult :=
  if ¬ (1 ≤ severity_rating ∧ severity_rating ≤ 10) then ⟨false, s, []⟩
  else
    let s1 :=
      match s.votes.find? (fun v =>
          v.issue_id == issue_id && v.user_id == user_id && v.vote_type == "severity") with
      | some existing =>
          { s with votes := s.votes.map (fun w =>
              if w.id == existing.id then { w with rating := severity_rating, created_at := now }
              else w) }
      | none =>
          { s with
              votes := s.votes ++
                [{ id := s.next_vote_id, issue_id := issue_id, user_id := user_id,
                   vote_type := "severity", rating := severity_rating, created_at := now }],
              next_vote_id := s.next_vote_id + 1 }
    ⟨true, recalculate_issue_priority s1 issue_id now, [issue_id]⟩

/-- The `INSERT OR IGNORE` membership test on the (issue_id,
duplicate_issue_id) unique index. -/
def dupPairPresent (s : Store) (issue_id duplicate_issue_id : ℕ) : Bool :=
  s.duplicate_reports.any (fun p =>
    p.issue_id == issue_id && p.duplicate_issue_id == duplicate_issue_id)

/-- `CitizenVoting.mark_duplicate`: insert-or-ignore the ordered link pair,
then recompute both referenced issues; no id validation happens here. -/
noncomputable def mark_duplicate
    (s : Store) (issue_id duplicate_issue_id user_id : ℕ) (now : ℤ) : CoordResult :=
  let s1 :=
    if dupPairPresent s issue_id duplicate_issue_id then s
    else { s with duplicate_reports := s.duplicate_reports ++
            [{ issue_id := issue_id, duplicate_issue_id := duplicate_issue_id,
               reported_by := user_id, created_at := now }] }
  let s2 := recalculate_issue_priority s1 issue_id now
  let s3 := recalculate_issue_priority s2 duplicate_issue_id now
  ⟨true, s3, [issue_id, duplicate_issue_id]⟩

/-- `Issue.update_priority_score` (`app/models/models.py`, lines 534-567):
read the current score and level, write the new priority fields of the
given breakdown, and append one priority-log entry — with `trigger_reason`
hard-coded to `automatic_recalculation` — when the issue existed before the
write. -/
def update_priority_score (s : Store) (issue_id : ℕ) (pd : Breakdown) (now : ℤ) : Store :=
  let current := s.issues.find? (fun r => r.id == issue_id)
  let s1 := { s with issues := setPriorityFields pd now issue_id s.issues }
  match current with
  | some c =>
      { s1 with priority_logs := s1.priority_logs ++
          [{ issue_id := issue_id,
             old_priority_score := c.priority_score,
             new_priority_score := pd.final_score,
             old_priority_level := c.priority_level,
             new_priority_level := pd.priority_level,
             trigger_reason := "automatic_recalculation",
             created_at := now }] }
  | none => s1

/-- `Issue.recalculate_all_priorities` (`app/models/models.py`): snapshot
the non-resolved issues, recompute and persist each one in turn (no log
entry is appended on this path), and return how many were processed. -/
noncomputable def recalculate_all_priorities (s : Store) (now : ℤ) : Store × ℕ :=
  let snapshot := s.issues.filter (fun r => r.status != "resolved")
  (snapshot.foldl (fun acc issue =>
      let pd := calculate_overall_priority_score acc.issues now (rowToData issue)
      { acc with issues := setPriorityFields pd now issue.id acc.issues }) s,
   snapshot.length)

/-- Result classes of a priority route handler: HTTP 200 success, an HTTP
400 input rejection, or an HTTP 500 failure. -/
inductive RouteOutcome where
  | success : RouteOutcome
  | validationError : RouteOutcome
  | serverError : RouteOutcome
deriving DecidableEq

/-- The `/api/vote/duplicate` route handler (`priority_routes.py`, lines
123-154) for an authenticated session: reject missing (falsy) ids, reject
`issue_id == duplicate_issue_id`, both before any store access; otherwise
run `CitizenVoting.mark_duplicate`. -/
noncomputable def mark_duplicate_route
    (s : Store) (issue_id duplicate_issue_id user_id : ℕ) (now : ℤ) :
    RouteOutcome × Store × List ℕ :=
  if issue_id == 0 || duplicate_issue_id == 0 then (.validationError, s, [])
  else if issue_id == duplicate_issue_id then (.validationError, s, [])
  else
    let r := mark_duplicate s issue_id duplicate_issue_id user_id now
    (if r.ok then .success else .serverError, r.store, r.recomputed)

/-! Claim theorems. -/

/-- C7: the priority level is a deterministic, total function of the final
score: every score at least 8.0 maps to critical, scores in [6.5, 8.0) to
high, [4.5, 6.5) to medium, [2.5, 4.5) to low, everything below 2.5 to
very_low, and every score receives exactly one of the five levels. -/
theorem priority_level_thresholds (s : ℚ) :
    (8 ≤ s → priorityLevelOf s = "critical") ∧
    (13/2 ≤ s ∧ s < 8 → priorityLevelOf s = "high") ∧
    (9/2 ≤ s ∧ s < 13/2 → priorityLevelOf s = "medium") ∧
    (5/2 ≤ s ∧ s < 9/2 → priorityLevelOf s = "low") ∧
    (s < 5/2 → priorityLevelOf s = "very_low") ∧
    (priorityLevelOf s = "critical" ∨ priorityLevelOf s = "high" ∨
      priorityLevelOf s = "medium" ∨ priorityLevelOf s = "low" ∨
      priorityLevelOf s = "very_low") := by
  unfold priorityLevelOf
  split_ifs with h1 h2 h3 h4 <;>
    refine ⟨?_, ?_, ?_, ?_, ?_, ?_⟩ <;>
    simp_all <;> intros <;> first | rfl | linarith

/-- Witness for C7 at concrete scores in each band. -/
theorem priority_level_thresholds_w :
    priorityLevelOf 9 = "critical" ∧ priorityLevelOf 7 = "high" ∧
    priorityLevelOf 5 = "medium" ∧ priorityLevelOf 3 = "low" ∧
    priorityLevelOf 1 = "very_low" :=
  ⟨(priority_level_thresholds 9).1 (by norm_num),
   (priority_level_thresholds 7).2.1 ⟨by norm_num, by norm_num⟩,
   (priority_level_thresholds 5).2.2.1 ⟨by norm_num, by norm_num⟩,
   (priority_level_thresholds 3).2.2.2.1 ⟨by norm_num, by norm_num⟩,
   (priority_level_thresholds 1).2.2.2.2.1 (by norm_num)⟩

/-- C10: for every coordinate pair and address the location factor stays in
[2, 10]: the road-type base is between 2 and 10, the facility bonus is
non-negative and capped at 3, and the capped sum is rounded. -/
theorem location_score_range (latitude longitude : ℚ) (address : String) :
    2 ≤ roadTypeScore (lowerStr address) ∧ roadTypeScore (lowerStr address) ≤ 10 ∧
    0 ≤ calculate_facility_proximity_bonus latitude longitude (lowerStr address) ∧
    calculate_facility_proximity_bonus latitude longitude (lowerStr address) ≤ 3 ∧
    2 ≤ calculate_location_score latitude longitude address ∧
    calculate_location_score latitude longitude address ≤ 10 := by
  have hroad1 : 2 ≤ roadTypeScore (lowerStr address) := by
    unfold roadTypeScore; split_ifs <;> norm_num
  have hroad2 : roadTypeScore (lowerStr address) ≤ 10 := by
    unfold roadTypeScore; split_ifs <;> norm_num
  have hb0 : 0 ≤ calculate_facility_proximity_bonus latitude longitude (lowerStr address) := by
    unfold calculate_facility_proximity_bonus
    refine le_min (by norm_num) ?_
    split_ifs <;> norm_num
  have hb3 : calculate_facility_proximity_bonus latitude longitude (lowerStr address) ≤ 3 :=
    min_le_left _ _
  refine ⟨hroad1, hroad2, hb0, hb3, ?_, ?_⟩
  · have h2 : (2:ℚ) ≤ min 10 (roadTypeScore (lowerStr address) +
        calculate_facility_proximity_bonus latitude longitude (lowerStr address)) :=
      le_min (by norm_num) (by linarith)
    have := int_le_round2 (min 10 (roadTypeScore (lowerStr address) +
        calculate_facility_proximity_bonus latitude longitude (lowerStr address))) 2
      (by exact_mod_cast h2)
    unfold calculate_location_score
    exact_mod_cast this
  · have h10 : min 10 (roadTypeScore (lowerStr address) +
        calculate_facility_proximity_bonus latitude longitude (lowerStr address)) ≤ (10:ℚ) :=
      min_le_left _ _
    have := round2_le_int (min 10 (roadTypeScore (lowerStr address) +
        calculate_facility_proximity_bonus latitude longitude (lowerStr address))) 10
      (by exact_mod_cast h10)
    unfold calculate_location_score
    exact_mod_cast this

/-- A fixed issue payload used to instantiate universally quantified
theorems at a concrete input. -/
def sampleData : IssueData :=
  { id := 1, category := "others", title := "", description := "",
    latitude := 0, longitude := 0, address := "", created_at := 0 }

/-- C6: the final score is the 2-decimal rounding of the fixed weighted sum
of the five factor scores, the weights sum to exactly 1, and whenever the
five factors lie in [1, 10] so does the rounded weighted sum. -/
theorem final_score_aggregate (issues : List IssueRow) (now : ℤ) (d : IssueData)
    (sev loc rep age saf : ℚ)
    (hs1 : 1 ≤ sev) (hs2 : sev ≤ 10) (hl1 : 1 ≤ loc) (hl2 : loc ≤ 10)
    (hr1 : 1 ≤ rep) (hr2 : rep ≤ 10) (ha1 : 1 ≤ age) (ha2 : age ≤ 10)
    (hf1 : 1 ≤ saf) (hf2 : saf ≤ 10) :
    (WEIGHTS.map Prod.snd).sum = 1 ∧
    (calculate_overall_priority_score issues now d).final_score =
      round2 (weightedFinalScore (calculate_severity_score d)
        (calculate_location_score d.latitude d.longitude d.address)
        (calculate_reports_count_score issues d.id d.latitude d.longitude).1
        (calculate_age_score d.created_at now)
        (calculate_safety_impact_score d)) ∧
    1 ≤ round2 (weightedFinalScore sev loc rep age saf) ∧
    round2 (weightedFinalScore sev loc rep age saf) ≤ 10 := by
  have hw : (WEIGHTS.map Prod.snd).sum = 1 := by norm_num [WEIGHTS]
  have hlow : (1:ℚ) ≤ weightedFinalScore sev loc rep age saf := by
    unfold weightedFinalScore; linarith
  have hhigh : weightedFinalScore sev loc rep age saf ≤ 10 := by
    unfold weightedFinalScore; linarith
  refine ⟨hw, rfl, ?_, ?_⟩
  · have := int_le_round2 (weightedFinalScore sev loc rep age saf) 1 (by exact_mod_cast hlow)
    exact_mod_cast this
  · have := round2_le_int (weightedFinalScore sev loc rep age saf) 10 (by exact_mod_cast hhigh)
    exact_mod_cast this

/-- Witness for C6 with all five factor scores equal to 5. -/
theorem final_score_aggregate_w :
    (WEIGHTS.map Prod.snd).sum = 1 ∧
    1 ≤ round2 (weightedFinalScore 5 5 5 5 5) ∧
    round2 (weightedFinalScore 5 5 5 5 5) ≤ 10 := by
  have h := final_score_aggregate [] 0 sampleData 5 5 5 5 5
    (by norm_num) (by norm_num) (by norm_num) (by norm_num) (by norm_num)
    (by norm_num) (by norm_num) (by norm_num) (by norm_num) (by norm_num)
  exact ⟨h.1, h.2.2.1, h.2.2.2⟩

lemma countP_filter_and {α : Type} (p q : α → Bool) (l : List α) :
    (l.filter q).countP p = l.countP (fun a => q a && p a) := by
  induction l with
  | nil => simp
  | cons a l ih =>
      by_cases hq : q a <;> by_cases hp : p a <;>
        simp [List.filter_cons, List.countP_cons, hq, hp, ih]

lemma round2_reportsScore (n : ℕ) :
    round2 (reportsScoreOfCount n) = reportsScoreOfCount n := by
  unfold reportsScoreOfCount
  split_ifs <;> norm_num [round2, rndHalfEven]

/-- C2 (amended): the duplicate-report factor counts the other stored
issues of any category with status different from resolved within 100 m,
and returns the stated bucketing of that count. -/
theorem reports_count_characterization
    (issues : List IssueRow) (issue_id : ℕ) (latitude longitude : ℚ) :
    (calculate_reports_count_score issues issue_id latitude longitude).2
      = issues.countP (fun r => (r.id != issue_id && r.status != "resolved")
          && isNearbyDuplicate latitude longitude r) ∧
    (calculate_reports_count_score issues issue_id latitude longitude).1
      = reportsScoreOfCount (calculate_reports_count_score issues issue_id latitude longitude).2 ∧
    reportsScoreOfCount 0 = 1 ∧
    (∀ n : ℕ, 1 ≤ n → n ≤ 2 → reportsScoreOfCount n = 3) ∧
    (∀ n : ℕ, 3 ≤ n → n ≤ 5 → reportsScoreOfCount n = 6) ∧
    (∀ n : ℕ, 6 ≤ n → n ≤ 10 → reportsScoreOfCount n = 8) ∧
    (∀ n : ℕ, 10 < n → reportsScoreOfCount n = 10) := by
  refine ⟨?_, ?_, by decide, ?_, ?_, ?_, ?_⟩
  · unfold calculate_reports_count_score
    exact countP_filter_and _ _ _
  · unfold calculate_reports_count_score
    exact round2_reportsScore _
  · intro n h1 h2; unfold reportsScoreOfCount; split_ifs <;> first | rfl | omega
  · intro n h1 h2; unfold reportsScoreOfCount; split_ifs <;> first | rfl | omega
  · intro n h1 h2; unfold reportsScoreOfCount; split_ifs <;> first | rfl | omega
  · intro n h1; unfold reportsScoreOfCount; split_ifs <;> first | rfl | omega

/-- Witness for C2's amended bucket characterization at concrete counts. -/
theorem reports_count_characterization_w :
    (calculate_reports_count_score [] 0 0 0).2 = 0 ∧
    reportsScoreOfCount 2 = 3 ∧ reportsScoreOfCount 4 = 6 ∧
    reportsScoreOfCount 7 = 8 ∧ reportsScoreOfCount 11 = 10 := by
  have h := reports_count_characterization [] 0 0 0
  exact ⟨by rw [h.1]; rfl,
    h.2.2.2.1 2 (by norm_num) (by norm_num),
    h.2.2.2.2.1 4 (by norm_num) (by norm_num),
    h.2.2.2.2.2.1 7 (by norm_num) (by norm_num),
    h.2.2.2.2.2.2 11 (by norm_num)⟩

def c2IssueA : IssueRow :=
  { id := 1, category := "road", title := "", description := "",
    status := "pending", latitude := 0, longitude := 0, address := "",
    created_at := 0 }

def c2IssueB : IssueRow := { c2IssueA with id := 2, category := "water" }

open Classical in
/-- The duplicate-report factor as the specification words it for claim C2:
only other non-resolved issues of the same category within 100 m count. -/
noncomputable def reportsCountScoreSpec
    (issues : List IssueRow) (issue_id : ℕ) (category : String)
    (latitude longitude : ℚ) : ℚ × ℕ :=
  let c := issues.countP (fun r =>
    (r.id != issue_id && r.category == category && r.status != "resolved")
      && isNearbyDuplicate latitude longitude r)
  (reportsScoreOfCount c, c)

lemma isNearbyDuplicate_same_point (latitude longitude : ℚ) (r : IssueRow)
    (hlat : r.latitude = latitude) (hlon : r.longitude = longitude) :
    isNearbyDuplicate latitude longitude r = true := by
  apply decide_eq_true
  rw [hlat, hlon, calculate_distance_self]
  norm_num

/-- C2 counterexample: with two co-located unresolved issues of different
categories, the code counts the other issue (score 3.0, count 1) while the
claim's same-category rule yields score 1.0, count 0. -/
theorem reports_count_no_category_filter :
    calculate_reports_count_score [c2IssueA, c2IssueB] 1 0 0 = (3, 1) ∧
    reportsCountScoreSpec [c2IssueA, c2IssueB] 1 "road" 0 0 = (1, 0) ∧
    ((3:ℚ), (1:ℕ)) ≠ ((1:ℚ), (0:ℕ)) := by
  have hB : isNearbyDuplicate 0 0 c2IssueB = true :=
    isNearbyDuplicate_same_point 0 0 c2IssueB rfl rfl
  refine ⟨?_, ?_, by norm_num⟩
  · have hfilter : [c2IssueA, c2IssueB].filter
        (fun r => r.id != 1 && r.status != "resolved") = [c2IssueB] := by decide
    simp only [calculate_reports_count_score, hfilter, List.countP_cons,
      List.countP_nil, hB, if_true]
    norm_num [reportsScoreOfCount, round2, rndHalfEven]
  · have hA : (c2IssueA.id != 1 && c2IssueA.category == "road"
        && c2IssueA.status != "resolved") = false := by decide
    have hBc : (c2IssueB.id != 1 && c2IssueB.category == "road"
        && c2IssueB.status != "resolved") = false := by decide
    simp only [reportsCountScoreSpec, List.countP_cons, List.countP_nil, hA, hBc,
      Bool.false_and, Bool.and_eq_true, if_false]
    norm_num [reportsScoreOfCount, round2, rndHalfEven]

/-- C4 (amended): the safety-impact factor is the clamped, rounded value of
a running score that starts at 5.0 and adds the keyword modifier and the
category table value (with `dustbin`, not `sanitation`, in the table); with
no matching keywords it equals 5 plus the table value. -/
theorem safety_impact_formula (d : IssueData) :
    calculate_safety_impact_score d
      = round2 (min 10 (max 1 (5 +
          ((3/2) * (countMatches (lowerStr d.title ++ " " ++ lowerStr d.description)
              high_impact_keywords : ℚ)
            + 1 * (countMatches (lowerStr d.title ++ " " ++ lowerStr d.description)
              economic_keywords : ℚ))
          + categoryImpact (lowerStr d.category)))) ∧
    (countMatches (lowerStr d.title ++ " " ++ lowerStr d.description) high_impact_keywords = 0 →
      countMatches (lowerStr d.title ++ " " ++ lowerStr d.description) economic_keywords = 0 →
      calculate_safety_impact_score d = 5 + categoryImpact (lowerStr d.category)) := by
  constructor
  · rfl
  · intro h1 h2
    simp only [calculate_safety_impact_score, h1, h2]
    unfold categoryImpact
    split_ifs <;> norm_num [round2, rndHalfEven]

/-- Witness for C4's amended no-keyword case on an empty-text issue. -/
theorem safety_impact_formula_w :
    calculate_safety_impact_score sampleData = 5 + categoryImpact (lowerStr sampleData.category) :=
  (safety_impact_formula sampleData).2 (by decide) (by decide)

/-- The safety-impact base table exactly as claim C4 states it. -/
def safetyBaseSpec (category : String) : ℚ :=
  if category = "electricity" then 4 else if category = "water" then 7/2
  else if category = "road" then 3 else if category = "transport" then 3
  else if category = "sanitation" then 1 else 2

/-- The safety-impact factor as claim C4 words it: the table value is the
base, and `clamp(base + modifier, 1, 10)` is rounded. -/
def safetyImpactScoreSpec (category title description : String) : ℚ :=
  let text := lowerStr title ++ " " ++ lowerStr description
  let modifier : ℚ := (3/2) * (countMatches text high_impact_keywords : ℚ)
    + 1 * (countMatches text economic_keywords : ℚ)
  round2 (min 10 (max 1 (safetyBaseSpec category + modifier)))

def c4Data : IssueData :=
  { id := 1, category := "road", title := "", description := "",
    latitude := 0, longitude := 0, address := "", created_at := 0 }

/-- C4 counterexample: for a road issue with empty text the code yields
5.0 + 3.0 = 8.0, while the claim's formula yields the table value 3.0. -/
theorem safety_impact_base_offset :
    calculate_safety_impact_score c4Data = 8 ∧
    safetyImpactScoreSpec "road" "" "" = 3 ∧ (8:ℚ) ≠ 3 := by
  have h1 : countMatches (lowerStr "" ++ " " ++ lowerStr "") high_impact_keywords = 0 := by decide
  have h2 : countMatches (lowerStr "" ++ " " ++ lowerStr "") economic_keywords = 0 := by decide
  have hcat : categoryImpact (lowerStr "road") = 3 := by decide
  have hbase : safetyBaseSpec "road" = 3 := by decide
  refine ⟨?_, ?_, by norm_num⟩
  · simp only [calculate_safety_impact_score, c4Data, h1, h2, hcat]
    norm_num [round2, rndHalfEven]
  · simp only [safetyImpactScoreSpec, h1, h2, hbase]
    norm_num [round2, rndHalfEven]

lemma recalc_votes (s : Store) (i : ℕ) (now : ℤ) :
    (recalculate_issue_priority s i now).votes = s.votes := by
  unfold recalculate_issue_priority
  cases s.issues.find? (fun r => r.id == i) <;> rfl

lemma recalc_duplicate_reports (s : Store) (i : ℕ) (now : ℤ) :
    (recalculate_issue_priority s i now).duplicate_reports = s.duplicate_reports := by
  unfold recalculate_issue_priority
  cases s.issues.find? (fun r => r.id == i) <;> rfl

lemma recalc_priority_logs (s : Store) (i : ℕ) (now : ℤ) :
    (recalculate_issue_priority s i now).priority_logs = s.priority_logs := by
  unfold recalculate_issue_priority
  cases s.issues.find? (fun r => r.id == i) <;> rfl

lemma recalc_of_missing (s : Store) (i : ℕ) (now : ℤ)
    (h : ∀ r ∈ s.issues, r.id ≠ i) : recalculate_issue_priority s i now = s := by
  unfold recalculate_issue_priority
  have hf : s.issues.find? (fun r => r.id == i) = none := by
    rw [List.find?_eq_none]
    intro r hr
    simpa using h r hr
  rw [hf]

lemma mark_duplicate_dups (s : Store) (i d u : ℕ) (now : ℤ) :
    (mark_duplicate s i d u now).store.duplicate_reports =
      (if dupPairPresent s i d then s.duplicate_reports
       else s.duplicate_reports ++
        [{ issue_id := i, duplicate_issue_id := d, reported_by := u, created_at := now }]) := by
  unfold mark_duplicate
  by_cases hp : dupPairPresent s i d <;>
    simp [hp, recalc_duplicate_reports]

/-- C9: the coordinator-level mark_duplicate never surfaces a missing
issue: it reports success unconditionally, the link row is inserted (when
the ordered pair is new) regardless of whether either id exists, and a
recompute of a missing issue leaves the issues table untouched. -/
theorem mark_duplicate_ignores_missing_issues (s : Store) (i d u : ℕ) (now : ℤ) :
    (mark_duplicate s i d u now).ok = true ∧
    (dupPairPresent s i d = true →
      (mark_duplicate s i d u now).store.duplicate_reports = s.duplicate_reports) ∧
    (dupPairPresent s i d = false →
      (mark_duplicate s i d u now).store.duplicate_reports = s.duplicate_reports ++
        [{ issue_id := i, duplicate_issue_id := d, reported_by := u, created_at := now }]) ∧
    ((∀ r ∈ s.issues, r.id ≠ i) → (∀ r ∈ s.issues, r.id ≠ d) →
      (mark_duplicate s i d u now).store.issues = s.issues) := by
  refine ⟨?_, ?_, ?_, ?_⟩
  · unfold mark_duplicate
    rfl
  · intro hp
    rw [mark_duplicate_dups, if_pos hp]
  · intro hp
    rw [mark_duplicate_dups, if_neg (by simp [hp])]
  · intro hi hd
    unfold mark_duplicate
    by_cases hp : dupPairPresent s i d
    · simp only [hp, if_true]
      rw [recalc_of_missing s i now hi, recalc_of_missing s d now hd]
    · simp only [if_neg hp]
      have h1 : recalculate_issue_priority
          { s with duplicate_reports := s.duplicate_reports ++
            [{ issue_id := i, duplicate_issue_id := d, reported_by := u, created_at := now }] }
          i now =
          { s with duplicate_reports := s.duplicate_reports ++
            [{ issue_id := i, duplicate_issue_id := d, reported_by := u, created_at := now }] } :=
        recalc_of_missing _ i now hi
      rw [h1]
      have h2 := recalc_of_missing
          { s with duplicate_reports := s.duplicate_reports ++
            [{ issue_id := i, duplicate_issue_id := d, reported_by := u, created_at := now }] }
          d now hd
      rw [h2]

def emptyStore : Store :=
  { issues := [], votes := [], duplicate_reports := [], priority_logs := [],
    next_vote_id := 1 }

/-- Witness for C9 on an empty store: both ids missing, yet the call
succeeds, inserts the link, and leaves the issues table unchanged. -/
theorem mark_duplicate_ignores_missing_issues_w :
    (mark_duplicate emptyStore 1 2 3 0).ok = true ∧
    (mark_duplicate emptyStore 1 2 3 0).store.duplicate_reports =
      [{ issue_id := 1, duplicate_issue_id := 2, reported_by := 3, created_at := 0 }] ∧
    (mark_duplicate emptyStore 1 2 3 0).store.issues = [] := by
  have h := mark_duplicate_ignores_missing_issues emptyStore 1 2 3 0
  refine ⟨h.1, ?_, ?_⟩
  · have := h.2.2.1 (by decide)
    simpa using this
  · simpa using h.2.2.2 (by simp [emptyStore]) (by simp [emptyStore])

lemma mark_duplicate_ok_rec (s : Store) (i d u : ℕ) (now : ℤ) :
    (mark_duplicate s i d u now).ok = true ∧
    (mark_duplicate s i d u now).recomputed = [i, d] := by
  unfold mark_duplicate
  exact ⟨rfl, rfl⟩

/-- C3: for valid (non-zero) ids, the duplicate route rejects a
self-referential mark with a validation failure and no store write or
recompute; for distinct ids it succeeds, inserts the ordered link pair only
when absent, and triggers recomputes of exactly both ids. -/
theorem mark_duplicate_route_spec (s : Store) (i d u : ℕ) (now : ℤ)
    (hi : i ≠ 0) (hd : d ≠ 0) :
    (i = d → mark_duplicate_route s i d u now = (.validationError, s, [])) ∧
    (i ≠ d →
      (mark_duplicate_route s i d u now).1 = .success ∧
      (mark_duplicate_route s i d u now).2.2 = [i, d] ∧
      (dupPairPresent s i d = true →
        (mark_duplicate_route s i d u now).2.1.duplicate_reports = s.duplicate_reports) ∧
      (dupPairPresent s i d = false →
        (mark_duplicate_route s i d u now).2.1.duplicate_reports = s.duplicate_reports ++
          [{ issue_id := i, duplicate_issue_id := d, reported_by := u, created_at := now }])) := by
  constructor
  · intro heq
    unfold mark_duplicate_route
    rw [if_neg (by simp [hi, hd]), if_pos (by simp [heq])]
  · intro hne
    have hroute : mark_duplicate_route s i d u now =
        ((if (mark_duplicate s i d u now).ok then .success else .serverError),
          (mark_duplicate s i d u now).store, (mark_duplicate s i d u now).recomputed) := by
      unfold mark_duplicate_route
      rw [if_neg (by simp [hi, hd]), if_neg (by simp [hne])]
    rw [hroute]
    have hok := (mark_duplicate_ok_rec s i d u now).1
    have hrec := (mark_duplicate_ok_rec s i d u now).2
    refine ⟨by rw [hok]; rfl, by simpa using hrec, ?_, ?_⟩
    · intro hp
      simpa using (mark_duplicate_dups s i d u now).trans (if_pos hp)
    · intro hp
      simpa using (mark_duplicate_dups s i d u now).trans (if_neg (by simp [hp]))

/-- Witness for C3: the self-mark of issue 1 is rejected without writes,
and marking 1 as duplicate of 2 inserts the pair and recomputes both. -/
theorem mark_duplicate_route_spec_w :
    mark_duplicate_route emptyStore 1 1 3 0 = (.validationError, emptyStore, []) ∧
    (mark_duplicate_route emptyStore 1 2 3 0).1 = .success ∧
    (mark_duplicate_route emptyStore 1 2 3 0).2.2 = [1, 2] ∧
    (mark_duplicate_route emptyStore 1 2 3 0).2.1.duplicate_reports =
      [{ issue_id := 1, duplicate_issue_id := 2, reported_by := 3, created_at := 0 }] := by
  have h1 := (mark_duplicate_route_spec emptyStore 1 1 3 0 (by norm_num) (by norm_num)).1 rfl
  have h2 := (mark_duplicate_route_spec emptyStore 1 2 3 0 (by norm_num) (by norm_num)).2
    (by norm_num)
  refine ⟨h1, h2.1, h2.2.1, ?_⟩
  have := h2.2.2.2 (by decide)
  simpa using this

lemma recalculate_all_priorities_logs (s : Store) (now : ℤ) :
    ((recalculate_all_priorities s now).1).priority_logs = s.priority_logs := by
  unfold recalculate_all_priorities
  generalize s.issues.filter (fun r => r.status != "resolved") = snapshot
  induction snapshot generalizing s with
  | nil => rfl
  | cons a l ih => simpa using ih _

lemma submit_severity_vote_logs (s : Store) (issue_id user_id : ℕ) (rating now : ℤ) :
    (submit_severity_vote s issue_id user_id rating now).store.priority_logs
      = s.priority_logs := by
  unfold submit_severity_vote
  by_cases hr : 1 ≤ rating ∧ rating ≤ 10
  · rw [if_neg (by simpa using hr)]
    cases s.votes.find? (fun v =>
        v.issue_id == issue_id && v.user_id == user_id && v.vote_type == "severity") <;>
      simp [recalc_priority_logs]
  · rw [if_pos hr]

lemma mark_duplicate_logs (s : Store) (i d u : ℕ) (now : ℤ) :
    (mark_duplicate s i d u now).store.priority_logs = s.priority_logs := by
  unfold mark_duplicate
  by_cases hp : dupPairPresent s i d <;>
    simp [hp, recalc_priority_logs]

/-- C5 (amended): neither the event-triggered recompute path
(`CitizenVoting._recalculate_issue_priority`, reached from votes and
duplicate marks) nor the batch job appends any priority-log entry; only
`Issue.update_priority_score` appends one, and its `trigger_reason` is
always `automatic_recalculation`, whatever caused the recompute. -/
theorem priority_log_discipline (s : Store) (issue_id dup_id user_id : ℕ)
    (rating now : ℤ) (pd : Breakdown) :
    (recalculate_issue_priority s issue_id now).priority_logs = s.priority_logs ∧
    (mark_duplicate s issue_id dup_id user_id now).store.priority_logs = s.priority_logs ∧
    (submit_severity_vote s issue_id user_id rating now).store.priority_logs
      = s.priority_logs ∧
    ((recalculate_all_priorities s now).1).priority_logs = s.priority_logs ∧
    (∀ c, s.issues.find? (fun x => x.id == issue_id) = some c →
      (update_priority_score s issue_id pd now).priority_logs = s.priority_logs ++
        [{ issue_id := issue_id, old_priority_score := c.priority_score,
           new_priority_score := pd.final_score,
           old_priority_level := c.priority_level,
           new_priority_level := pd.priority_level,
           trigger_reason := "automatic_recalculation", created_at := now }]) ∧
    (s.issues.find? (fun x => x.id == issue_id) = none →
      (update_priority_score s issue_id pd now).priority_logs = s.priority_logs) := by
  refine ⟨recalc_priority_logs s issue_id now,
    mark_duplicate_logs s issue_id dup_id user_id now,
    submit_severity_vote_logs s issue_id user_id rating now,
    recalculate_all_priorities_logs s now, ?_, ?_⟩
  · intro c hc
    unfold update_priority_score
    rw [hc]
  · intro hc
    unfold update_priority_score
    rw [hc]

def oneIssueStore : Store :=
  { issues := [c2IssueA], votes := [], duplicate_reports := [],
    priority_logs := [], next_vote_id := 1 }

def pdSample : Breakdown :=
  { final_score := 5, priority_level := "medium", severity := 5, location := 5,
    reports_count := 5, age := 5, safety_impact := 5, duplicate_count := 0 }

/-- Witness for C5's amended log discipline on a one-issue store. -/
theorem priority_log_discipline_w :
    (recalculate_issue_priority oneIssueStore 1 0).priority_logs = [] ∧
    (update_priority_score oneIssueStore 1 pdSample 0).priority_logs =
      [{ issue_id := 1, old_priority_score := none, new_priority_score := 5,
         old_priority_level := none, new_priority_level := "medium",
         trigger_reason := "automatic_recalculation", created_at := 0 }] := by
  have h := priority_log_discipline oneIssueStore 1 2 3 7 0 pdSample
  refine ⟨h.1, ?_⟩
  have hfind : oneIssueStore.issues.find? (fun x => x.id == 1) = some c2IssueA := by decide
  have := h.2.2.2.2.1 c2IssueA hfind
  simpa [oneIssueStore, c2IssueA, pdSample] using this

/-- C5 counterexample: a successful severity vote triggers a recompute (the
issue's breakdown is persisted) yet appends no priority-log entry at all —
in particular no entry with trigger_reason severity_vote. -/
theorem vote_recompute_appends_no_log :
    (submit_severity_vote oneIssueStore 1 7 7 0).ok = true ∧
    (submit_severity_vote oneIssueStore 1 7 7 0).store.priority_logs = [] ∧
    ((submit_severity_vote oneIssueStore 1 7 7 0).store.issues.map
      (fun r => r.priority_breakdown.isSome)) = [true] := by
  refine ⟨rfl, ?_, rfl⟩
  have := submit_severity_vote_logs oneIssueStore 1 7 7 0
  simpa [oneIssueStore] using this

def c1Issue : IssueRow :=
  { id := 1, category := "others", title := "", description := "",
    status := "pending", latitude := 0, longitude := 0, address := "",
    created_at := 0 }

def c1StoreNoVotes : Store :=
  { issues := [c1Issue], votes := [], duplicate_reports := [],
    priority_logs := [], next_vote_id := 2 }

def c1StoreVote : Store :=
  { c1StoreNoVotes with
      votes := [{ id := 1, issue_id := 1, user_id := 1, vote_type := "severity",
                  rating := 10, created_at := 0 }] }

lemma c1_severity_value : calculate_severity_score (rowToData c1Issue) = 5 := by
  have h1 : countMatches (lowerStr "" ++ " " ++ lowerStr "") high_severity_keywords = 0 := by
    decide
  have h2 : countMatches (lowerStr "" ++ " " ++ lowerStr "") medium_severity_keywords = 0 := by
    decide
  have h3 : countMatches (lowerStr "" ++ " " ++ lowerStr "") low_severity_keywords = 0 := by
    decide
  have hcat : severityCategoryScore "others" = 5 := by decide
  simp only [calculate_severity_score, rowToData, c1Issue, h1, h2, h3, hcat]
  norm_num [round2, rndHalfEven]

/-- C1: the recompute path never observes stored severity votes.  The
Python `_recalculate_issue_priority` builds `issue_data` from the issues
row alone, the row has no `citizen_severity_votes` column, and so the
0.7/0.3 blend never fires: with one stored rating-10 vote committed before
the recompute, the severity factor written back is the vote-free 5.0
instead of the claim's 0.7*5 + 0.3*10 = 6.5, and a store differing only in
its stored votes produces an identical recompute result. -/
theorem recompute_severity_ignores_stored_votes :
    (calculate_overall_priority_score c1StoreVote.issues 0 (rowToData c1Issue)).severity = 5 ∧
    (recalculate_issue_priority c1StoreVote 1 0).issues
      = (recalculate_issue_priority c1StoreNoVotes 1 0).issues ∧
    ((recalculate_issue_priority c1StoreVote 1 0).issues.map
      (fun r => r.priority_breakdown.map (fun pd => pd.severity))) = [some 5] ∧
    (7/10 : ℚ) * 5 + (3/10) * 10 = 13/2 ∧ (5 : ℚ) ≠ 13/2 := by
  have hsev : (calculate_overall_priority_score c1StoreVote.issues 0 (rowToData c1Issue)).severity
      = 5 := c1_severity_value
  refine ⟨hsev, rfl, ?_, by norm_num, by norm_num⟩
  have hfind : c1StoreVote.issues.find? (fun r => r.id == 1) = some c1Issue := by decide
  simp only [recalculate_issue_priority, hfind, setPriorityFields]
  simp only [c1StoreVote, c1StoreNoVotes]
  simp only [List.map_cons, List.map_nil]
  rw [show (c1Issue.id == 1) = true from by decide]
  have hsev2 : (calculate_overall_priority_score [c1Issue] 0 (rowToData c1Issue)).severity = 5 :=
    hsev
  simp [hsev2]

/-- The severity votes of one user on one issue, as the upsert's lookup
query selects them. -/
def severityVotesFor (s : Store) (issue_id user_id : ℕ) : List VoteRow :=
  s.votes.filter (fun v =>
    v.issue_id == issue_id && v.user_id == user_id && v.vote_type == "severity")

lemma find?_of_filter_singleton {α : Type} (p : α → Bool) (l : List α) (v : α)
    (h : l.filter p = [v]) : l.find? p = some v := by
  induction l with
  | nil => simp at h
  | cons a t ih =>
      by_cases hp : p a
      · rw [List.filter_cons_of_pos hp] at h
        obtain ⟨h1, _⟩ := List.cons_eq_cons.mp h
        rw [List.find?_cons_of_pos _ hp, h1]
      · rw [List.filter_cons_of_neg hp] at h
        rw [List.find?_cons_of_neg _ hp]
        exact ih h

lemma filter_map_update (issue_id user_id : ℕ) (rating now : ℤ) (exid : ℕ)
    (l : List VoteRow) :
    List.filter (fun v =>
        v.issue_id == issue_id && v.user_id == user_id && v.vote_type == "severity")
      (List.map (fun w =>
        if w.id == exid then { w with rating := rating, created_at := now } else w) l)
    = List.map (fun w =>
        if w.id == exid then { w with rating := rating, created_at := now } else w)
      (List.filter (fun v =>
        v.issue_id == issue_id && v.user_id == user_id && v.vote_type == "severity") l) := by
  induction l with
  | nil => rfl
  | cons a t ih =>
      have hupd : ((if a.id == exid
            then ({ a with rating := rating, created_at := now } : VoteRow)
            else a).issue_id == issue_id
          && (if a.id == exid
            then ({ a with rating := rating, created_at := now } : VoteRow)
            else a).user_id == user_id
          && (if a.id == exid
            then ({ a with rating := rating, created_at := now } : VoteRow)
            else a).vote_type == "severity")
          = (a.issue_id == issue_id && a.user_id == user_id && a.vote_type == "severity") := by
        by_cases hid : (a.id == exid) = true <;> simp [hid]
      simp only [List.map_cons, List.filter_cons, hupd]
      by_cases ha : (a.issue_id == issue_id && a.user_id == user_id
          && a.vote_type == "severity") = true
      · simp only [ha, if_true, List.map_cons, ih]
      · rw [Bool.not_eq_true] at ha
        simp only [ha, Bool.false_eq_true, if_false, ih]

/-- C8: submit_severity_vote rejects ratings outside [1, 10] before any
store write; for a rating in [1, 10] it succeeds, triggers exactly one
recompute (of that issue), keeps at most one severity-vote row per
(issue_id, user_id), and a repeat submission rewrites the existing row's
rating and timestamp in place without changing the row count. -/
theorem submit_severity_vote_spec (s : Store) (issue_id user_id : ℕ) (rating now : ℤ) :
    (¬ (1 ≤ rating ∧ rating ≤ 10) →
      submit_severity_vote s issue_id user_id rating now = ⟨false, s, []⟩) ∧
    ((1 ≤ rating ∧ rating ≤ 10) →
      (submit_severity_vote s issue_id user_id rating now).ok = true ∧
      (submit_severity_vote s issue_id user_id rating now).recomputed = [issue_id] ∧
      ((severityVotesFor s issue_id user_id).length ≤ 1 →
        (severityVotesFor (submit_severity_vote s issue_id user_id rating now).store
          issue_id user_id).length ≤ 1) ∧
      (∀ v, severityVotesFor s issue_id user_id = [v] →
        severityVotesFor (submit_severity_vote s issue_id user_id rating now).store
            issue_id user_id
          = [{ v with rating := rating, created_at := now }] ∧
        (submit_severity_vote s issue_id user_id rating now).store.votes.length
          = s.votes.length)) := by
  constructor
  · intro hr
    unfold submit_severity_vote
    rw [if_pos hr]
  · intro hr
    have hsubmit : submit_severity_vote s issue_id user_id rating now =
        (match s.votes.find? (fun v =>
            v.issue_id == issue_id && v.user_id == user_id && v.vote_type == "severity") with
          | some existing =>
              ⟨true, recalculate_issue_priority
                { s with votes := s.votes.map (fun w =>
                    if w.id == existing.id then { w with rating := rating, created_at := now }
                    else w) } issue_id now, [issue_id]⟩
          | none =>
              ⟨true, recalculate_issue_priority
                { s with
                    votes := s.votes ++
                      [{ id := s.next_vote_id, issue_id := issue_id, user_id := user_id,
                         vote_type := "severity", rating := rating, created_at := now }],
                    next_vote_id := s.next_vote_id + 1 } issue_id now, [issue_id]⟩) := by
      unfold submit_severity_vote
      rw [if_neg (not_not_intro hr)]
      cases s.votes.find? (fun v =>
          v.issue_id == issue_id && v.user_id == user_id && v.vote_type == "severity") <;> rfl
    cases hfind : s.votes.find? (fun v =>
        v.issue_id == issue_id && v.user_id == user_id && v.vote_type == "severity") with
    | some existing =>
        rw [hfind] at hsubmit
        have hvotes : (submit_severity_vote s issue_id user_id rating now).store.votes
            = s.votes.map (fun w =>
                if w.id == existing.id then { w with rating := rating, created_at := now }
                else w) := by
          rw [hsubmit]
          exact recalc_votes _ _ _
        have hcomm := filter_map_update issue_id user_id rating now existing.id
        refine ⟨by rw [hsubmit], by rw [hsubmit], ?_, ?_⟩
        · intro hlen
          unfold severityVotesFor at hlen ⊢
          rw [hvotes, hcomm]
          simpa using hlen
        · intro v hv
          have hex : existing = v := by
            have := find?_of_filter_singleton _ s.votes v hv
            rw [hfind] at this
            exact (Option.some.injEq _ _).mp this.symm |>.symm
          subst hex
          constructor
          · unfold severityVotesFor at hv ⊢
            rw [hvotes, hcomm, hv]
            simp
          · rw [hvotes]
            simp
    | none =>
        rw [hfind] at hsubmit
        have hvotes : (submit_severity_vote s issue_id user_id rating now).store.votes
            = s.votes ++
              [{ id := s.next_vote_id, issue_id := issue_id, user_id := user_id,
                 vote_type := "severity", rating := rating, created_at := now }] := by
          rw [hsubmit]
          exact recalc_votes _ _ _
        have hempty : severityVotesFor s issue_id user_id = [] := by
          unfold severityVotesFor
          rw [List.filter_eq_nil_iff]
          intro a ha
          have := List.find?_eq_none.mp hfind a ha
          simpa using this
        refine ⟨by rw [hsubmit], by rw [hsubmit], ?_, ?_⟩
        · intro _
          unfold severityVotesFor
          rw [hvotes, List.filter_append]
          unfold severityVotesFor at hempty
          rw [hempty]
          simp
        · intro v hv
          rw [hempty] at hv
          simp at hv

def c8Vote : VoteRow :=
  { id := 1, issue_id := 1, user_id := 4, vote_type := "severity",
    rating := 3, created_at := 0 }

def c8Store : Store :=
  { issues := [c2IssueA], votes := [c8Vote], duplicate_reports := [],
    priority_logs := [], next_vote_id := 2 }

/-- Witness for C8: rating 0 is rejected without a write; resubmitting
rating 9 over the stored rating-3 vote rewrites that row in place, keeps
one row, and recomputes only issue 1. -/
theorem submit_severity_vote_spec_w :
    submit_severity_vote c8Store 1 4 0 0 = ⟨false, c8Store, []⟩ ∧
    (submit_severity_vote c8Store 1 4 9 0).ok = true ∧
    (submit_severity_vote c8Store 1 4 9 0).recomputed = [1] ∧
    severityVotesFor (submit_severity_vote c8Store 1 4 9 0).store 1 4
      = [{ id := 1, issue_id := 1, user_id := 4, vote_type := "severity",
           rating := 9, created_at := 0 }] ∧
    (submit_severity_vote c8Store 1 4 9 0).store.votes.length = 1 := by
  have h0 := (submit_severity_vote_spec c8Store 1 4 0 0).1 (by norm_num)
  have h9 := (submit_severity_vote_spec c8Store 1 4 9 0).2 (by norm_num)
  have hv : severityVotesFor c8Store 1 4 = [c8Vote] := by decide
  have hup := h9.2.2.2 c8Vote hv
  refine ⟨h0, h9.1, h9.2.1, ?_, ?_⟩
  · rw [hup.1]
    rfl
  · rw [hup.2]
    rfl
